import Mathlib

set_option synthInstance.maxSize 512

/-!
Verification development for the Claude Arena log-parsing pipeline
(src/backend/parsers/claude_logs.py).

The pipeline is shallowly embedded: one raw log line is represented as an
`Option Entry` (`none` models a line on which `json.loads` raises
`JSONDecodeError`, i.e. structural decode failure).  Python dictionaries that
are used as insertion-ordered maps (`defaultdict(int)` counters, the session
maps) are represented as insertion-ordered association lists; Python floats
are represented as exact rationals (`Rat`), with `round(x, 2)` modelled as
round-half-to-even on the exact value; Python truthiness of optional strings
(`None` and `""` are falsy) is modelled by `strTruthy`.  A Python function
that can raise an exception that escapes to a caller is modelled with an
`Option` result (`none` = exception).
-/

namespace ClaudeArena

/-- `message["usage"]` of an assistant entry.  `none` fields model absent
keys; the source reads them with `usage.get(key, 0)`. -/
structure Usage where
  input_tokens : Option Nat
  output_tokens : Option Nat
  cache_read_input_tokens : Option Nat
  cache_creation_input_tokens : Option Nat
deriving DecidableEq

/-- One element of a message `content` array.  `other` covers non-dict items
and dict items of any unrecognized `type`.  For `tool_use` the `name` key may
be absent (read as `item.get("name", "unknown")`); for `tool_result`,
`is_error` is the truthiness of `item.get("is_error")` and `content` is read
as `item.get("content", "Unknown error")`. -/
inductive ContentItem where
  | text (s : String)
  | tool_use (name : Option String)
  | tool_result (is_error : Bool) (content : Option String)
  | other
deriving DecidableEq

/-- `message["content"]`: the logs hold either a plain string or an array of
typed items. -/
inductive Content where
  | str (s : String)
  | items (l : List ContentItem)
deriving DecidableEq

/-- `entry["message"]`: `model`, `usage` and `content` keys are optional. -/
structure Message where
  model : Option String
  usage : Option Usage
  content : Option Content
deriving DecidableEq

/-- The empty dict used as default by `entry.get("message", {})`. -/
def emptyMessage : Message := ⟨none, none, none⟩

/-- `entry["toolUseResult"]`: either a string or some other structured
value (only the string form is inspected by the source). -/
inductive ToolUseResult where
  | str (s : String)
  | other
deriving DecidableEq

/-- One decoded log line (a `RawEvent`).  Every field models an optional
dictionary key of the decoded JSON object. -/
structure Entry where
  type : Option String
  timestamp : Option String
  cwd : Option String
  gitBranch : Option String
  message : Option Message
  toolUseResult : Option ToolUseResult
deriving DecidableEq

/-- The four token counters of a session accumulator. -/
structure TokenUsage where
  input : Nat
  output : Nat
  cache_read : Nat
  cache_creation : Nat
deriving DecidableEq

/-- One recorded error: `{"timestamp": entry.get("timestamp"), "error": ...}`. -/
structure ErrorEntry where
  timestamp : Option String
  error : String
deriving DecidableEq

/-- One extracted conversation turn (`_extract_conversation`). -/
structure ConversationEntry where
  timestamp : Option String
  role : String
  content : String
  model : Option String
  tools_used : List String
deriving DecidableEq

/-- The per-file session accumulator built by `_parse_session_file`.
`tools_used` models the Python set as a deduplicated insertion-ordered list
(the source freezes the set with `list(...)` at the end of the file).
The source also initializes a `"messages": []` entry that is never written
nor read anywhere in the module; it is omitted here. -/
structure SessionData where
  session_id : String
  conversations : Option (List ConversationEntry)
  tools_used : List String
  token_usage : TokenUsage
  errors : List ErrorEntry
  model : Option String
  project : Option String
  git_branch : Option String
  start_time : Option String
  end_time : Option String
  duration_seconds : Rat
deriving DecidableEq

/-- Python truthiness of an optional string (`None` and `""` are falsy). -/
def strTruthy : Option String → Bool
  | none => false
  | some s => !(s == "")

/-- Python `set.add` on the insertion-ordered list model of a set. -/
def setAdd (l : List String) (x : String) : List String :=
  if x ∈ l then l else l ++ [x]

/-- Python `path_str.strip(chars)`: remove leading and trailing characters
belonging to `chars`. -/
def pyStrip (s : String) (chars : List Char) : String :=
  String.mk (((s.toList.dropWhile (· ∈ chars)).reverse.dropWhile (· ∈ chars)).reverse)

/-- The scan of `_extract_project_name`: find the first `"project"` part that
is not the final part and return everything after it. -/
def findAfterProject : List String → Option (List String)
  | [] => none
  | p :: rest =>
      if p = "project" ∧ rest ≠ [] then some rest
      else findAfterProject rest

/-- `_extract_project_name`: clean a project directory name or `cwd` path. -/
def extract_project_name (path_str : String) : String :=
  let clean_name := pyStrip path_str ['-', '/']
  let parts := clean_name.splitOn "-"
  match (if clean_name.startsWith "Users-" then findAfterProject parts else none) with
  | some rest => String.intercalate "-" rest
  | none =>
      if parts.length > 3 then String.intercalate "-" (parts.drop (parts.length - 3))
      else clean_name

/-! Model of CPython `datetime.fromisoformat` (standard library, not
repository code), preceded by the source's `.replace('Z', '+00:00')`.
The value of a timestamp is its epoch offset in seconds as a rational;
a malformed timestamp yields `none`, modelling a raised `ValueError`.
Only the values of well-formed common ISO-8601 forms matter downstream
(no claim inspects a concrete duration). -/

/-- Gregorian leap-year test. -/
def isLeap (y : Int) : Bool := y % 4 = 0 && (y % 100 ≠ 0 || y % 400 = 0)

/-- Number of days of month `m` (1–12) of year `y`. -/
def daysInMonth (y : Int) (m : Nat) : Nat :=
  if m = 2 then (if isLeap y then 29 else 28)
  else if m = 4 ∨ m = 6 ∨ m = 9 ∨ m = 11 then 30 else 31

/-- Days between a civil date and 1970-01-01 (standard civil-date
arithmetic). -/
def daysFromCivil (y : Int) (m d : Nat) : Int :=
  let y2 : Int := if m ≤ 2 then y - 1 else y
  let era : Int := (if 0 ≤ y2 then y2 else y2 - 399) / 400
  let yoe : Int := y2 - era * 400
  let mp : Int := (Int.ofNat m + 9) % 12
  let doy : Int := (153 * mp + 2) / 5 + Int.ofNat d - 1
  let doe : Int := yoe * 365 + yoe / 4 - yoe / 100 + doy
  era * 146097 + doe - 719468

/-- Parse `"HH:MM"`, `"HH:MM:SS"` or `"HH:MM:SS.ffffff"` into seconds. -/
def parseTimeOfDay (s : String) : Option Rat :=
  match s.splitOn ":" with
  | [hh, mm] => do
      let h ← hh.toNat?
      let m ← mm.toNat?
      if hh.length = 2 ∧ mm.length = 2 ∧ h < 24 ∧ m < 60 then
        pure ((h : Rat) * 3600 + (m : Rat) * 60)
      else none
  | [hh, mm, ssf] => do
      let h ← hh.toNat?
      let m ← mm.toNat?
      let (sec, frac) ← match ssf.splitOn "." with
        | [ss] => do
            let s0 ← ss.toNat?
            if ss.length = 2 then pure (s0, (0 : Rat)) else none
        | [ss, fs] => do
            let s0 ← ss.toNat?
            let f0 ← fs.toNat?
            if ss.length = 2 ∧ 1 ≤ fs.length ∧ fs.length ≤ 6 then
              pure (s0, (f0 : Rat) / ((10 : Rat) ^ fs.length))
            else none
        | _ => none
      if hh.length = 2 ∧ mm.length = 2 ∧ h < 24 ∧ m < 60 ∧ sec < 60 then
        pure ((h : Rat) * 3600 + (m : Rat) * 60 + (sec : Rat) + frac)
      else none
  | _ => none

/-- Split an ISO time-of-day string from a trailing UTC-offset part; the
returned flag is true for a negative offset. -/
def splitOffset (s : String) : String × Option (Bool × String) :=
  let cs := s.toList
  match cs.findIdx? (fun c => c = '+' ∨ c = '-') with
  | some i =>
      (String.mk (cs.take i), some ((cs.getD i ' ' = '-'), String.mk (cs.drop (i + 1))))
  | none => (s, none)

/-- `datetime.fromisoformat` applied after `.replace('Z', '+00:00')`, as in
`_parse_session_file`: epoch seconds of the timestamp, or `none` on a
malformed string (`ValueError`). -/
def fromisoformat (s0 : String) : Option Rat :=
  let s := s0.replace "Z" "+00:00"
  let cs := s.toList
  if cs.length < 10 then none else
  match (String.mk (cs.take 10)).splitOn "-" with
  | [ys, ms, ds] => do
      let y ← ys.toNat?
      let mo ← ms.toNat?
      let d ← ds.toNat?
      if ys.length = 4 ∧ ms.length = 2 ∧ ds.length = 2 ∧ 1 ≤ mo ∧ mo ≤ 12 ∧
          1 ≤ d ∧ d ≤ daysInMonth (Int.ofNat y) mo then
        let base : Rat := (daysFromCivil (Int.ofNat y) mo d : Rat) * 86400
        match cs.drop 10 with
        | [] => pure base
        | sep :: rest =>
            if sep = 'T' ∨ sep = ' ' then do
              let (tpart, off) := splitOffset (String.mk rest)
              let tsec ← parseTimeOfDay tpart
              match off with
              | none => pure (base + tsec)
              | some (neg, ostr) => do
                  let osec ← parseTimeOfDay ostr
                  pure (base + tsec - (if neg then -osec else osec))
            else none
      else none
  | _ => none

/-! The Session Builder (`_process_log_entry` and its helpers). -/

/-- `_process_assistant_entry`.  Returns `none` when the Python code would
raise: a non-empty string-valued `content` is iterated character by
character and `.get` on a character raises `AttributeError`, which escapes
to the outer handler of `_parse_session_file` (an empty string iterates
zero times and is harmless). -/
def process_assistant_entry (entry : Entry) (sd : SessionData) : Option SessionData :=
  let message := entry.message.getD emptyMessage
  let sd := match message.model with
    | some m => if !(strTruthy sd.model) then { sd with model := some m } else sd
    | none => sd
  let sd := match message.usage with
    | some u =>
        { sd with token_usage :=
            { input := sd.token_usage.input + u.input_tokens.getD 0,
              output := sd.token_usage.output + u.output_tokens.getD 0,
              cache_read := sd.token_usage.cache_read + u.cache_read_input_tokens.getD 0,
              cache_creation := sd.token_usage.cache_creation + u.cache_creation_input_tokens.getD 0 } }
    | none => sd
  match message.content with
  | none => some sd
  | some (.str s) => if s = "" then some sd else none
  | some (.items l) =>
      let tools := l.foldl (fun acc item =>
        match item with
        | .tool_use name => setAdd acc (name.getD "unknown")
        | _ => acc) sd.tools_used
      some { sd with tools_used := tools }

/-- `_process_user_entry`: record tool-result errors from the `content`
items (string-valued `content` is iterated character by character; a
character is not a dict, so nothing is recorded) and from a string-valued
`toolUseResult` starting with `"Error:"`. -/
def process_user_entry (entry : Entry) (sd : SessionData) : SessionData :=
  let message := entry.message.getD emptyMessage
  let sd := match message.content with
    | some (.items l) =>
        { sd with errors := sd.errors ++ l.filterMap (fun item =>
            match item with
            | .tool_result true c => some ⟨entry.timestamp, c.getD "Unknown error"⟩
            | _ => none) }
    | _ => sd
  match entry.toolUseResult with
  | some (.str s) =>
      if s.startsWith "Error:" then { sd with errors := sd.errors ++ [⟨entry.timestamp, s⟩] }
      else sd
  | _ => sd

/-- First `"text"`-typed item of a content array (`_extract_conversation`
breaks at the first match; its `text` key defaults to `""`). -/
def firstTextItem (l : List ContentItem) : String :=
  match l.find? (fun item => match item with | .text _ => true | _ => false) with
  | some (.text s) => s
  | _ => ""

/-- `_extract_conversation`: append one conversation turn when a non-empty
text content is found; the text is truncated to 1000 characters. -/
def extract_conversation (entry : Entry) (sd : SessionData) (role : String) : SessionData :=
  let message := entry.message.getD emptyMessage
  let content := message.content.getD (.str "")
  let text_content : String :=
    if role = "user" then
      match content with
      | .str s => s
      | .items l => firstTextItem l
    else if role = "assistant" then
      match content with
      | .str _ => ""
      | .items l => firstTextItem l
    else ""
  if text_content = "" then sd
  else
    let tools : List String :=
      if role = "assistant" then
        match content with
        | .items l => l.filterMap (fun item =>
            match item with
            | .tool_use name => some (name.getD "unknown")
            | _ => none)
        | _ => []
      else []
    let centry : ConversationEntry :=
      ⟨entry.timestamp, role, text_content.take 1000,
       if role = "assistant" then message.model else none, tools⟩
    match sd.conversations with
    | some cs => { sd with conversations := some (cs ++ [centry]) }
    | none => sd

/-- `_process_log_entry`: one state update per decoded event.  `none`
models an exception escaping (only possible through
`process_assistant_entry`). -/
def process_log_entry (entry : Entry) (sd : SessionData) (include_conversations : Bool) :
    Option SessionData :=
  let sd := match entry.timestamp with
    | some ts =>
        let sd := if !(strTruthy sd.start_time) then { sd with start_time := some ts } else sd
        { sd with end_time := some ts }
    | none => sd
  let sd := match entry.cwd with
    | some c =>
        if !(strTruthy sd.project) then { sd with project := some (extract_project_name c) }
        else sd
    | none => sd
  let sd := match entry.gitBranch with
    | some g => if !(strTruthy sd.git_branch) then { sd with git_branch := some g } else sd
    | none => sd
  let etype := entry.type.getD ""
  if etype = "assistant" then
    (process_assistant_entry entry sd).map (fun sd =>
      if include_conversations && sd.conversations.isSome then
        extract_conversation entry sd "assistant"
      else sd)
  else if etype = "user" then
    let sd := process_user_entry entry sd
    some (if include_conversations && sd.conversations.isSome then
      extract_conversation entry sd "user"
    else sd)
  else some sd

/-- The fresh accumulator created at the start of `_parse_session_file`. -/
def initSessionData (session_id : String) (include_conversations : Bool) : SessionData :=
  { session_id := session_id,
    conversations := if include_conversations then some [] else none,
    tools_used := [],
    token_usage := ⟨0, 0, 0, 0⟩,
    errors := [],
    model := none,
    project := none,
    git_branch := none,
    start_time := none,
    end_time := none,
    duration_seconds := 0 }

/-- One iteration of the per-line loop of `_parse_session_file`: a line
that fails decode (`none`) is skipped by the `except JSONDecodeError:
continue` handler; an already-raised exception (`acc = none`) propagates. -/
def step_log_line (include_conversations : Bool) (acc : Option SessionData)
    (line : Option Entry) : Option SessionData :=
  match acc, line with
  | none, _ => none
  | some sd, none => some sd
  | some sd, some entry => process_log_entry entry sd include_conversations

/-- The per-line loop of `_parse_session_file`. -/
def foldLogLines (include_conversations : Bool) (acc : Option SessionData)
    (lines : List (Option Entry)) : Option SessionData :=
  lines.foldl (step_log_line include_conversations) acc

/-- `_parse_session_file`.  The `file` argument is `none` when opening or
reading the file raises (caught by the outer handler, which returns
`None`); otherwise it holds one `Option Entry` per raw line.  A `none`
result models the Python `None` return. -/
def parse_session_file (session_id : String) (file : Option (List (Option Entry)))
    (include_conversations : Bool) : Option SessionData :=
  match file with
  | none => none
  | some lines =>
    if lines = [] then none
    else
      match foldLogLines include_conversations
          (some (initSessionData session_id include_conversations)) lines with
      | none => none
      | some sd =>
          if strTruthy sd.start_time ∧ strTruthy sd.end_time then
            match fromisoformat (sd.start_time.getD ""), fromisoformat (sd.end_time.getD "") with
            | some a, some b => some { sd with duration_seconds := b - a }
            | _, _ => none
          else some sd

/-! Insertion-ordered association-list model of the Python dicts used as
counters and maps. -/

/-- `m[k] += n` on a `defaultdict(int)`: bump in place, or append a fresh
key at the end. -/
def bumpBy : List (String × Nat) → String → Nat → List (String × Nat)
  | [], k, n => [(k, n)]
  | (k2, v) :: rest, k, n =>
      if k2 = k then (k2, v + n) :: rest else (k2, v) :: bumpBy rest k n

/-- Counter read with default 0 (`defaultdict(int)` lookup, first match). -/
def lookup0 : List (String × Nat) → String → Nat
  | [], _ => 0
  | p :: rest, k => if p.1 = k then p.2 else lookup0 rest k

/-- `d[k] = v` on a dict: overwrite in place, or append a fresh key. -/
def dictSet {α : Type} : List (String × α) → String → α → List (String × α)
  | [], k, v => [(k, v)]
  | (k2, v2) :: rest, k, v =>
      if k2 = k then (k2, v) :: rest else (k2, v2) :: dictSet rest k v

/-- `d.update(other)` on a dict. -/
def dictUpdate {α : Type} (m other : List (String × α)) : List (String × α) :=
  other.foldl (fun acc p => dictSet acc p.1 p.2) m

/-! The Project Aggregator (`_parse_project_logs`). -/

/-- The per-project accumulator. -/
structure ProjectData where
  sessions : List (String × SessionData)
  tool_usage : List (String × Nat)
  models_used : List (String × Nat)
  total_tokens : TokenUsage
  error_count : Nat
deriving DecidableEq

/-- One input file of a project directory: its stem (the session id) and
its content (`none` when opening/reading it raises). -/
def FileInput : Type := String × Option (List (Option Entry))

/-- One iteration of the file loop of `_parse_project_logs`: a file whose
parse returns `None` contributes nothing; otherwise its record is stored
under its stem and folded into every accumulator. -/
def step_project_file (include_conversations : Bool) (pd : ProjectData)
    (file : String × Option (List (Option Entry))) : ProjectData :=
  match parse_session_file file.1 file.2 include_conversations with
  | none => pd
  | some sd =>
      { sessions := dictSet pd.sessions file.1 sd,
        tool_usage := sd.tools_used.foldl (fun m t => bumpBy m t 1) pd.tool_usage,
        models_used :=
          if strTruthy sd.model then bumpBy pd.models_used (sd.model.getD "") 1
          else pd.models_used,
        total_tokens :=
          ⟨pd.total_tokens.input + sd.token_usage.input,
           pd.total_tokens.output + sd.token_usage.output,
           pd.total_tokens.cache_read + sd.token_usage.cache_read,
           pd.total_tokens.cache_creation + sd.token_usage.cache_creation⟩,
        error_count := pd.error_count + sd.errors.length }

/-- `_parse_project_logs`: fold every `.jsonl` file of one project
directory. -/
def parse_project_logs (files : List (String × Option (List (Option Entry))))
    (include_conversations : Bool) : ProjectData :=
  files.foldl (step_project_file include_conversations) ⟨[], [], [], ⟨0, 0, 0, 0⟩, 0⟩

/-! The Global Aggregator (`parse_all_projects` and
`_calculate_aggregate_stats`). -/

/-- The derived statistics block.  In the source this is a plain dict; the
initial `{}` placeholder of `all_data["aggregate_stats"]` is modelled as
`none` at the `AllData` level. -/
structure AggregateStats where
  total_sessions : Nat
  total_projects : Nat
  total_tokens : TokenUsage
  total_errors : Nat
  total_duration_hours : Rat
  average_session_duration_minutes : Rat
  most_used_tools : List (String × Nat)
  most_used_models : List (String × Nat)
  error_rate : Rat
deriving DecidableEq

/-- The top-level accumulator of `parse_all_projects`.  The source also
initializes a `"daily_usage"` defaultdict that is never written nor read
anywhere in the module; it is omitted here. -/
structure AllData where
  sessions : List (String × SessionData)
  aggregate_stats : Option AggregateStats
  projects : List (String × ProjectData)
  tool_usage : List (String × Nat)
  models_used : List (String × Nat)
deriving DecidableEq

/-- Round half to even, as CPython `round` does on its float argument (the
binary representation error of floats is abstracted away: values are exact
rationals). -/
def roundHalfEven (q : Rat) : Int :=
  if q - ⌊q⌋ < (1 : Rat) / 2 then ⌊q⌋
  else if (1 : Rat) / 2 < q - ⌊q⌋ then ⌊q⌋ + 1
  else if ⌊q⌋ % 2 = 0 then ⌊q⌋ else ⌊q⌋ + 1

/-- Python `round(q, 2)`. -/
def pyRound2 (q : Rat) : Rat := (roundHalfEven (q * 100) : Rat) / 100

/-- Python `sorted(m.items(), key=lambda x: x[1], reverse=True)`: a stable
descending sort by count (CPython sorted is stable, and `reverse=True`
preserves the original order of equal keys). -/
def sortDescByCount (m : List (String × Nat)) : List (String × Nat) :=
  m.mergeSort (fun a b => decide (b.2 ≤ a.2))

/-- Sum of the global `tool_usage` counts: the error-rate denominator
`total_tool_calls = sum(all_data["tool_usage"].values())`. -/
def totalToolCalls (d : AllData) : Nat := (d.tool_usage.map (fun p => p.2)).sum

/-- The token-summing loop of `_calculate_aggregate_stats`. -/
def total_tokens_of (d : AllData) : TokenUsage :=
  ⟨((d.sessions.map (fun p => p.2)).map (fun s => s.token_usage.input)).sum,
   ((d.sessions.map (fun p => p.2)).map (fun s => s.token_usage.output)).sum,
   ((d.sessions.map (fun p => p.2)).map (fun s => s.token_usage.cache_read)).sum,
   ((d.sessions.map (fun p => p.2)).map (fun s => s.token_usage.cache_creation)).sum⟩

/-- `stats["total_errors"]`: summed error-list lengths over all sessions. -/
def total_errors_of (d : AllData) : Nat :=
  ((d.sessions.map (fun p => p.2)).map (fun s => s.errors.length)).sum

/-- `total_duration`: summed `duration_seconds` over all sessions. -/
def total_duration_of (d : AllData) : Rat :=
  ((d.sessions.map (fun p => p.2)).map (fun s => s.duration_seconds)).sum

/-- `stats["total_duration_hours"]`: only set when there is at least one
session, else left at its initial 0. -/
def total_duration_hours_of (d : AllData) : Rat :=
  if d.sessions.length > 0 then pyRound2 (total_duration_of d / 3600) else 0

/-- `stats["average_session_duration_minutes"]`, same guard. -/
def average_minutes_of (d : AllData) : Rat :=
  if d.sessions.length > 0 then
    pyRound2 (total_duration_of d / (d.sessions.length : Rat) / 60)
  else 0

/-- `stats["error_rate"]`: inside the `total_sessions > 0` guard, the raw
rate `total_errors / total_tool_calls * 100` is rounded to 2 decimals and
capped at 100; the zero-division guard leaves it at 0. -/
def error_rate_of (d : AllData) : Rat :=
  if d.sessions.length > 0 then
    if totalToolCalls d > 0 then
      min 100 (pyRound2 ((total_errors_of d : Rat) / (totalToolCalls d : Rat) * 100))
    else 0
  else 0

/-- `_calculate_aggregate_stats`. -/
def calculate_aggregate_stats (d : AllData) : AggregateStats :=
  { total_sessions := d.sessions.length,
    total_projects := d.projects.length,
    total_tokens := total_tokens_of d,
    total_errors := total_errors_of d,
    total_duration_hours := total_duration_hours_of d,
    average_session_duration_minutes := average_minutes_of d,
    most_used_tools := (sortDescByCount d.tool_usage).take 10,
    most_used_models := sortDescByCount d.models_used,
    error_rate := error_rate_of d }

/-- One iteration of the directory loop of `parse_all_projects`: a project
whose sessions dict is empty (falsy) contributes nothing. -/
def step_project_dir (include_conversations : Bool) (d : AllData)
    (proj : String × List (String × Option (List (Option Entry)))) : AllData :=
  let project_name := extract_project_name proj.1
  let project_data := parse_project_logs proj.2 include_conversations
  if project_data.sessions = [] then d
  else
    { sessions := dictUpdate d.sessions project_data.sessions,
      aggregate_stats := d.aggregate_stats,
      projects := dictSet d.projects project_name project_data,
      tool_usage := project_data.tool_usage.foldl (fun m p => bumpBy m p.1 p.2) d.tool_usage,
      models_used := project_data.models_used.foldl (fun m p => bumpBy m p.1 p.2) d.models_used }

/-- `parse_all_projects`.  `root = none` models a missing base directory:
the source prints a warning and returns `all_data` before the statistics
are computed, so `aggregate_stats` is still its `{}` placeholder (`none`
here).  Each directory entry is a project directory name paired with its
`.jsonl` files (non-directory entries are skipped by the source and not
modelled). -/
def parse_all_projects
    (root : Option (List (String × List (String × Option (List (Option Entry))))))
    (include_conversations : Bool) : AllData :=
  match root with
  | none => { sessions := [], aggregate_stats := none, projects := [], tool_usage := [],
              models_used := [] }
  | some dirs =>
      let d := dirs.foldl (step_project_dir include_conversations)
        ⟨[], none, [], [], []⟩
      { d with aggregate_stats := some (calculate_aggregate_stats d) }

/-! The Score/Achievement Deriver (`export_for_arena`). -/

/-- The `user_stats` sub-dict of the export. -/
structure UserStats where
  total_sessions : Nat
  total_tokens_used : Nat
  total_hours : Rat
  error_rate : Rat
  projects_count : Nat
deriving DecidableEq

/-- The `leaderboard_stats` sub-dict of the export (`speed_demon_score` and
`night_owl_score` are hard-coded 0 in the source, "to be calculated"). -/
structure LeaderboardStats where
  precisionist_score : Rat
  speed_demon_score : Rat
  night_owl_score : Rat
  tool_master_score : Nat
  marathon_score : Rat
deriving DecidableEq

/-- One entry of `conversation_samples` (a conversation turn with its
project context added). -/
structure ConversationSample where
  timestamp : Option String
  role : String
  content : String
  project : Option String
  tools_used : List String
deriving DecidableEq

/-- One bucket of `daily_activity`. -/
structure DailyActivity where
  sessions : Nat
  tokens : Nat
deriving DecidableEq

/-- The Arena export dict.  For the two conversation-related keys, `Option`
models the presence of the dict key itself: the source sets
`"conversation_samples"` to `[]` unconditionally (always `some`), while
`"total_conversations"` is only added when conversations were requested. -/
structure ArenaExport where
  user_stats : UserStats
  tool_usage : List (String × Nat)
  daily_activity : List (String × DailyActivity)
  achievements : List String
  leaderboard_stats : LeaderboardStats
  conversations_included : Bool
  conversation_samples : Option (List ConversationSample)
  total_conversations : Option Nat
deriving DecidableEq

/-- `sum(session["token_usage"].values())`. -/
def tokenSum (t : TokenUsage) : Nat := t.input + t.output + t.cache_read + t.cache_creation

/-- The daily-activity scan of `export_for_arena`: for every session with a
truthy `start_time`, bucket by the first 10 characters of the timestamp,
counting sessions and summed tokens per date. -/
def daily_maps (sessions : List SessionData) :
    List (String × Nat) × List (String × Nat) :=
  sessions.foldl (fun acc sd =>
    if strTruthy sd.start_time then
      let date := (sd.start_time.getD "").take 10
      (bumpBy acc.1 date 1, bumpBy acc.2 date (tokenSum sd.token_usage))
    else acc) ([], [])

/-- The achievement block of `export_for_arena`: six sequential
threshold-guarded appends. -/
def achievements_of (stats : AggregateStats) (tool_usage : List (String × Nat)) :
    List String :=
  (if stats.total_sessions ≥ 1 then ["first_session"] else []) ++
  (if stats.total_sessions ≥ 10 then ["getting_started"] else []) ++
  (if stats.total_sessions ≥ 100 then ["power_user"] else []) ++
  (if stats.error_rate < 5 then ["precision_coder"] else []) ++
  (if tool_usage.length ≥ 10 then ["tool_master"] else []) ++
  (if stats.total_duration_hours ≥ 24 then ["day_warrior"] else [])

/-- The conversation pool of `export_for_arena`: every turn of every
session with a truthy `conversations` list, with the project context
added, in session-map order. -/
def conv_samples_pool (d : AllData) : List ConversationSample :=
  (d.sessions.map (fun p => p.2)).flatMap (fun sd =>
    match sd.conversations with
    | some cs =>
        if cs = [] then []
        else cs.map (fun c => ⟨c.timestamp, c.role, c.content, sd.project, c.tools_used⟩)
    | none => [])

/-- Python `all_conversations.sort(key=lambda x: x.get("timestamp", ""),
reverse=True)`: stable descending sort by timestamp. -/
def sortConvDesc (l : List ConversationSample) : List ConversationSample :=
  l.mergeSort (fun a b => decide ((b.timestamp.getD "") ≤ (a.timestamp.getD "")))

/-- `export_for_arena`.  Reading the `aggregate_stats` fields raises
`KeyError` when the block was never computed (`none`), modelled by a
`none` result. -/
def export_for_arena (parsed_data : AllData) (include_conversations : Bool) :
    Option ArenaExport :=
  match parsed_data.aggregate_stats with
  | none => none
  | some stats =>
      let dm := daily_maps (parsed_data.sessions.map (fun p => p.2))
      let dates := (dm.1.map (fun p => p.1)).mergeSort (fun a b => decide (a ≤ b))
      let pool := conv_samples_pool parsed_data
      some
        { user_stats :=
            ⟨stats.total_sessions, tokenSum stats.total_tokens, stats.total_duration_hours,
             stats.error_rate, stats.total_projects⟩,
          tool_usage := parsed_data.tool_usage,
          daily_activity := dates.map (fun date => (date, ⟨lookup0 dm.1 date, lookup0 dm.2 date⟩)),
          achievements := achievements_of stats parsed_data.tool_usage,
          leaderboard_stats :=
            ⟨max 0 (100 - stats.error_rate), 0, 0, parsed_data.tool_usage.length,
             stats.total_duration_hours⟩,
          conversations_included := include_conversations,
          conversation_samples :=
            some (if include_conversations then (sortConvDesc pool).take 50 else []),
          total_conversations := if include_conversations then some pool.length else none }

/-! Concrete data used by counterexamples and witnesses. -/

/-- An all-zero statistics block (also the block computed for an empty
data set). -/
def zeroStats : AggregateStats := ⟨0, 0, ⟨0, 0, 0, 0⟩, 0, 0, 0, [], [], 0⟩

/-- An empty data set whose statistics block has been computed. -/
def emptyAllDataWithStats : AllData := ⟨[], some zeroStats, [], [], []⟩

/-- A fallback export value (only used as the default of `Option.getD`). -/
def defaultExport : ArenaExport :=
  ⟨⟨0, 0, 0, 0, 0⟩, [], [], [], ⟨0, 0, 0, 0, 0⟩, false, none, none⟩

/-- The export of `emptyAllDataWithStats` without conversations. -/
def exportOfEmptyStats : ArenaExport :=
  (export_for_arena emptyAllDataWithStats false).getD defaultExport

/-- One session, no errors, two recorded tool invocations. -/
def c3data : AllData := ⟨[("s", initSessionData "s" false)], none, [], [("Bash", 2)], []⟩

/-- One session, no tool invocations at all. -/
def c3dataZero : AllData := ⟨[("s", initSessionData "s" false)], none, [], [], []⟩

/-- The snapshot of the C6 scenario: 10 sessions, error rate 3,
duration 30 h. -/
def c6stats : AggregateStats := ⟨10, 1, ⟨0, 0, 0, 0⟩, 0, 30, 0, [], [], 3⟩

/-- Twelve distinct tools for the C6 scenario. -/
def c6tools : List (String × Nat) :=
  [("t1", 1), ("t2", 1), ("t3", 1), ("t4", 1), ("t5", 1), ("t6", 1),
   ("t7", 1), ("t8", 1), ("t9", 1), ("t10", 1), ("t11", 1), ("t12", 1)]

/-- The data set of the C6 scenario. -/
def c6data : AllData := ⟨[], some c6stats, [], c6tools, []⟩

/-- A small assistant event: model `m1`, 5 input tokens, one `Bash` tool
use, no timestamp. -/
def wEntryA : Entry :=
  ⟨some "assistant", none, none, none,
   some ⟨some "m1", some ⟨some 5, none, none, none⟩,
         some (.items [.tool_use (some "Bash")])⟩, none⟩

/-- A small user event carrying one errored tool result. -/
def wEntryU : Entry :=
  ⟨some "user", none, none, none,
   some ⟨none, none, some (.items [.tool_result true (some "boom")])⟩, none⟩

/-- Two session files used by the C5 witness. -/
def wFiles1 : List (String × Option (List (Option Entry))) :=
  [("f1", some [some wEntryA]), ("f2", some [some wEntryU])]

/-- The same files in the opposite processing order. -/
def wFiles2 : List (String × Option (List (Option Entry))) :=
  [("f2", some [some wEntryU]), ("f1", some [some wEntryA])]

/-- Two one-file project directories used by the C5 witness. -/
def wDirs : List (String × List (String × Option (List (Option Entry)))) :=
  [("p1", [("f1", some [some wEntryA])]), ("p2", [("f2", some [some wEntryU])])]

/-- The same directories in the opposite processing order. -/
def wDirsRev : List (String × List (String × Option (List (Option Entry)))) :=
  [("p2", [("f2", some [some wEntryU])]), ("p1", [("f1", some [some wEntryA])])]

/-- The export of the empty directory tree. -/
def c10export : ArenaExport :=
  (export_for_arena (parse_all_projects (some []) false) false).getD defaultExport

/-! Per-file and per-directory contribution functions used to characterize
the aggregation folds (order-independence, §4.3/§4.4). -/

/-- The parse result of one project file. -/
def fileRecord (flag : Bool) (f : String × Option (List (Option Entry))) :
    Option SessionData :=
  parse_session_file f.1 f.2 flag

/-- Token contribution of one file to the project totals. -/
def fileTokens (flag : Bool) (f : String × Option (List (Option Entry))) : TokenUsage :=
  match fileRecord flag f with
  | some sd => sd.token_usage
  | none => ⟨0, 0, 0, 0⟩

/-- Error-count contribution of one file. -/
def fileErrors (flag : Bool) (f : String × Option (List (Option Entry))) : Nat :=
  match fileRecord flag f with
  | some sd => sd.errors.length
  | none => 0

/-- Contribution of one file to the count of tool `k` (the source adds 1
per element of the frozen tool list). -/
def fileToolCount (flag : Bool) (f : String × Option (List (Option Entry)))
    (k : String) : Nat :=
  match fileRecord flag f with
  | some sd => sd.tools_used.count k
  | none => 0

/-- Contribution of one file to the count of model `k`. -/
def fileModelCount (flag : Bool) (f : String × Option (List (Option Entry)))
    (k : String) : Nat :=
  match fileRecord flag f with
  | some sd => if strTruthy sd.model ∧ sd.model.getD "" = k then 1 else 0
  | none => 0

/-- The parsed aggregate of one project directory. -/
def dirProject (flag : Bool)
    (p : String × List (String × Option (List (Option Entry)))) : ProjectData :=
  parse_project_logs p.2 flag

/-- Contribution of one directory to the global count of tool `k` (zero
when the project is skipped for having no sessions). -/
def dirToolContrib (flag : Bool) (k : String)
    (p : String × List (String × Option (List (Option Entry)))) : Nat :=
  if (dirProject flag p).sessions = [] then 0
  else ((dirProject flag p).tool_usage.map (fun q => if q.1 = k then q.2 else 0)).sum

/-- Contribution of one directory to the global count of model `k`. -/
def dirModelContrib (flag : Bool) (k : String)
    (p : String × List (String × Option (List (Option Entry)))) : Nat :=
  if (dirProject flag p).sessions = [] then 0
  else ((dirProject flag p).models_used.map (fun q => if q.1 = k then q.2 else 0)).sum

/-! Theorems.  Each claim of the specification is settled by exactly one
theorem below (with a witness or counterexample where required). -/

/-- The `except JSONDecodeError: continue` handler: a `none` line leaves
the loop state untouched. -/
theorem step_log_line_none (flag : Bool) (acc : Option SessionData) :
    step_log_line flag acc none = acc := by
  cases acc <;> rfl

/-- Removing one undecodable line from anywhere in a file does not change
the per-line fold. -/
theorem foldLogLines_append_skip (flag : Bool) (acc : Option SessionData)
    (l₁ l₂ : List (Option Entry)) :
    foldLogLines flag acc (l₁ ++ none :: l₂) = foldLogLines flag acc (l₁ ++ l₂) := by
  simp [foldLogLines, List.foldl_append, step_log_line_none]

/-- C1: a line that fails structural decode is silently discarded by the
Session Builder: the per-line fold over the file with the undecodable line
removed yields the same accumulator (so the line contributes nothing and
does not count as an error), no exception arises from it (the fold state
stays defined exactly as without it), and the remaining lines are still
processed — `_parse_session_file` returns the same record as long as
removing the line does not make the file empty. -/
theorem c1_decode_failure_silently_discarded (flag : Bool) (acc : Option SessionData)
    (l₁ l₂ : List (Option Entry)) :
    foldLogLines flag acc (l₁ ++ none :: l₂) = foldLogLines flag acc (l₁ ++ l₂) ∧
    ∀ sid : String, l₁ ++ l₂ ≠ [] →
      parse_session_file sid (some (l₁ ++ none :: l₂)) flag =
        parse_session_file sid (some (l₁ ++ l₂)) flag := by
  refine ⟨foldLogLines_append_skip flag acc l₁ l₂, ?_⟩
  intro sid h
  have h1 : ¬(l₁ ++ none :: l₂ = ([] : List (Option Entry))) := by simp
  simp only [parse_session_file, if_neg h1, if_neg h, foldLogLines_append_skip]

/-- C1 witness at a concrete file: a user event followed by a corrupt
line. -/
theorem c1_witness :
    foldLogLines false (some (initSessionData "w" false)) ([some wEntryU] ++ none :: []) =
      foldLogLines false (some (initSessionData "w" false)) ([some wEntryU] ++ []) ∧
    parse_session_file "w" (some ([some wEntryU] ++ none :: [])) false =
      parse_session_file "w" (some ([some wEntryU] ++ [])) false :=
  ⟨(c1_decode_failure_silently_discarded false (some (initSessionData "w" false))
      [some wEntryU] []).1,
   (c1_decode_failure_silently_discarded false (some (initSessionData "w" false))
      [some wEntryU] []).2 "w" (by decide)⟩

/-- A file all of whose lines fail decode leaves the fresh accumulator
untouched. -/
theorem foldLogLines_all_none (flag : Bool) (sd : SessionData) :
    ∀ lines : List (Option Entry), (∀ x ∈ lines, x = none) →
      foldLogLines flag (some sd) lines = some sd := by
  intro lines
  induction lines with
  | nil => intro _; rfl
  | cons x rest ih =>
      intro h
      have hx := h x (List.mem_cons_self x rest)
      subst hx
      have hstep : foldLogLines flag (some sd) (none :: rest) =
          foldLogLines flag (some sd) rest := by
        simp [foldLogLines, step_log_line]
      rw [hstep]
      exact ih (fun y hy => h y (List.mem_cons_of_mem _ hy))

/-- C2 counterexample: a non-empty file consisting of a single undecodable
line does produce a SessionRecord (the stub accumulator), and that record
is entered into the project session map — the claim that an
entirely-malformed file yields no record and is excluded from the map is
false on the code (`_parse_session_file` only returns `None` for a file
with zero raw lines). -/
theorem c2_counterexample :
    parse_session_file "s" (some [none]) false ≠ none ∧
    (parse_project_logs [("s", some [none])] false).sessions ≠ [] := by
  constructor <;> decide

/-- C2 amended: an empty file (zero raw lines) yields no SessionRecord,
while a non-empty file whose lines all fail decode yields the stub record
with empty accumulators (which is then included in the session map). -/
theorem c2_amended_empty_or_malformed (sid : String) (flag : Bool) :
    parse_session_file sid (some []) flag = none ∧
    ∀ lines : List (Option Entry), lines ≠ [] → (∀ x ∈ lines, x = none) →
      parse_session_file sid (some lines) flag = some (initSessionData sid flag) := by
  constructor
  · rfl
  · intro lines hne hall
    simp only [parse_session_file, if_neg hne, foldLogLines_all_none flag _ lines hall]
    simp [initSessionData, strTruthy]

/-- C2 witness: the empty file and a two-corrupt-line file. -/
theorem c2_witness :
    parse_session_file "w" (some []) true = none ∧
    parse_session_file "w" (some [none, none]) true = some (initSessionData "w" true) :=
  ⟨(c2_amended_empty_or_malformed "w" true).1,
   (c2_amended_empty_or_malformed "w" true).2 [none, none] (by decide) (by decide)⟩

/-- C8: when the root logs directory is missing, `parse_all_projects`
returns (never raises) the initial accumulator: sessions, projects and the
global maps are empty, but `aggregate_stats` is still the `{}` placeholder
(`none`) rather than a computed block — so the repository's own consumer,
which immediately reads `aggregate_stats["total_sessions"]`, raises
`KeyError` (modelled by `export_for_arena` returning `none`). -/
theorem c8_missing_root_returns_placeholder (flag : Bool) :
    parse_all_projects none flag =
      { sessions := [], aggregate_stats := none, projects := [], tool_usage := [],
        models_used := [] } ∧
    export_for_arena (parse_all_projects none flag) flag = none :=
  ⟨rfl, rfl⟩

/-- C4 counterexample: with conversations not requested, the exported dict
still carries the `conversation_samples` key with an empty list as value
(`some []` — the `Option` models dict-key presence), refuting the claim
that the conversation-sample field is absent. -/
theorem c4_counterexample :
    (export_for_arena emptyAllDataWithStats false).map (fun e => e.conversation_samples) =
      some (some []) := rfl

/-- C4 amended: without the flag, `conversations_included` is false and
`total_conversations` is indeed absent, but `conversation_samples` is
present as an empty list (the source sets it to `[]` unconditionally). -/
theorem c4_amended_samples_present_empty (d : AllData) (e : ArenaExport)
    (h : export_for_arena d false = some e) :
    e.conversations_included = false ∧ e.conversation_samples = some [] ∧
    e.total_conversations = none := by
  rcases hd : d.aggregate_stats with _ | st
  · simp [export_for_arena, hd] at h
  · simp only [export_for_arena, hd] at h
    injection h with h2
    subst h2
    exact ⟨rfl, rfl, rfl⟩

/-- C4 witness at the empty data set. -/
theorem c4_witness :
    exportOfEmptyStats.conversations_included = false ∧
    exportOfEmptyStats.conversation_samples = some [] ∧
    exportOfEmptyStats.total_conversations = none :=
  c4_amended_samples_present_empty emptyAllDataWithStats exportOfEmptyStats rfl

/-- Round-half-even of a non-negative value is non-negative. -/
theorem roundHalfEven_nonneg {q : Rat} (h : 0 ≤ q) : 0 ≤ roundHalfEven q := by
  have h0 : (0 : Int) ≤ ⌊q⌋ := Int.floor_nonneg.mpr h
  unfold roundHalfEven
  split_ifs <;> omega

/-- `round(q, 2)` of a non-negative value is non-negative. -/
theorem pyRound2_nonneg {q : Rat} (h : 0 ≤ q) : 0 ≤ pyRound2 q := by
  have h1 : (0 : Int) ≤ roundHalfEven (q * 100) :=
    roundHalfEven_nonneg (by positivity)
  unfold pyRound2
  exact div_nonneg (by exact_mod_cast h1) (by norm_num)

/-- `round(0, 2) = 0`. -/
theorem pyRound2_zero : pyRound2 0 = 0 := by
  unfold pyRound2 roundHalfEven
  norm_num

/-- The computed error rate is never negative. -/
theorem error_rate_of_nonneg (d : AllData) : 0 ≤ error_rate_of d := by
  unfold error_rate_of
  split_ifs
  · refine le_min (by norm_num) (pyRound2_nonneg ?_)
    positivity
  · norm_num
  · norm_num

/-- The computed error rate never exceeds 100 (the explicit cap). -/
theorem error_rate_of_le_100 (d : AllData) : error_rate_of d ≤ 100 := by
  unfold error_rate_of
  split_ifs
  · exact min_le_left _ _
  · norm_num
  · norm_num

/-- C3 counterexample: one session, zero errors, two recorded tool
invocations — the error rate is 0 while the invocation total is not, so
"error_rate equals 0 exactly when the sum of the tool_usage counts is 0"
is false on the code (and the claimed exact formula also ignores the
2-decimal rounding the source applies before capping). -/
theorem c3_counterexample :
    (calculate_aggregate_stats c3data).error_rate = 0 ∧ totalToolCalls c3data ≠ 0 := by
  constructor
  · show error_rate_of c3data = 0
    have he : total_errors_of c3data = 0 := by decide
    have ht : totalToolCalls c3data = 2 := by decide
    have hs : c3data.sessions.length = 1 := by decide
    unfold error_rate_of
    rw [he, ht, hs]
    norm_num [pyRound2_zero]
  · decide

/-- C3 amended: the error rate always lies in [0, 100]; it is 0 whenever
the invocation total is 0 (explicit zero-division guard, never a division
error); and when there is at least one session and at least one recorded
invocation it equals `min(100, round(100 × total_errors /
total_tool_invocations, 2))` — the source rounds to 2 decimals before
capping, and a zero error count (or a rate rounding down to 0) also gives
0 with a non-zero denominator. -/
theorem c3_amended_error_rate (d : AllData) :
    0 ≤ (calculate_aggregate_stats d).error_rate ∧
    (calculate_aggregate_stats d).error_rate ≤ 100 ∧
    (totalToolCalls d = 0 → (calculate_aggregate_stats d).error_rate = 0) ∧
    (0 < d.sessions.length → 0 < totalToolCalls d →
      (calculate_aggregate_stats d).error_rate =
        min 100 (pyRound2 ((total_errors_of d : Rat) / (totalToolCalls d : Rat) * 100))) := by
  refine ⟨error_rate_of_nonneg d, error_rate_of_le_100 d, ?_, ?_⟩
  · intro h
    show error_rate_of d = 0
    unfold error_rate_of
    rw [h]
    norm_num
  · intro h1 h2
    show error_rate_of d = _
    unfold error_rate_of
    rw [if_pos h1, if_pos h2]

/-- C3 witness: the zero-invocation guard and the rounding formula at the
concrete data sets. -/
theorem c3_witness :
    (calculate_aggregate_stats c3dataZero).error_rate = 0 ∧
    (calculate_aggregate_stats c3data).error_rate =
      min 100 (pyRound2 ((total_errors_of c3data : Rat) / (totalToolCalls c3data : Rat) * 100)) :=
  ⟨(c3_amended_error_rate c3dataZero).2.2.1 (by decide),
   (c3_amended_error_rate c3data).2.2.2 (by decide) (by decide)⟩

/-- C6: the snapshot with 10 sessions, error rate 3, 12 distinct tools and
30 total hours unlocks exactly first_session, getting_started,
precision_coder, tool_master and day_warrior (power_user missing since
10 < 100); in general each flag is present iff its documented threshold on
the final aggregate holds. -/
theorem c6_achievement_thresholds :
    ((export_for_arena c6data false).map (fun e => e.achievements) =
      some ["first_session", "getting_started", "precision_coder", "tool_master",
            "day_warrior"]) ∧
    ∀ (stats : AggregateStats) (tu : List (String × Nat)),
      (("first_session" ∈ achievements_of stats tu) ↔ 1 ≤ stats.total_sessions) ∧
      (("getting_started" ∈ achievements_of stats tu) ↔ 10 ≤ stats.total_sessions) ∧
      (("power_user" ∈ achievements_of stats tu) ↔ 100 ≤ stats.total_sessions) ∧
      (("precision_coder" ∈ achievements_of stats tu) ↔ stats.error_rate < 5) ∧
      (("tool_master" ∈ achievements_of stats tu) ↔ 10 ≤ tu.length) ∧
      (("day_warrior" ∈ achievements_of stats tu) ↔ 24 ≤ stats.total_duration_hours) := by
  constructor
  · decide
  · intro stats tu
    unfold achievements_of
    refine ⟨?_, ?_, ?_, ?_, ?_, ?_⟩ <;>
      (split_ifs <;>
        first
          | exact iff_of_true (by decide) (by assumption)
          | exact iff_of_false (by decide) (by assumption))

/-- Whatever the snapshot, the achievement list is a subsequence of the
fixed six-flag sequence. -/
theorem achievements_of_sublist (stats : AggregateStats) (tu : List (String × Nat)) :
    List.Sublist (achievements_of stats tu)
      ["first_session", "getting_started", "power_user", "precision_coder",
       "tool_master", "day_warrior"] := by
  unfold achievements_of
  split_ifs <;> decide

/-- C9: the exported achievements always form a duplicate-free subsequence
of the fixed order [first_session, getting_started, power_user,
precision_coder, tool_master, day_warrior]; no other flag value can
appear, and unlocked flags keep this relative order. -/
theorem c9_achievements_fixed_order (d : AllData) (flag : Bool) (e : ArenaExport)
    (h : export_for_arena d flag = some e) :
    List.Sublist e.achievements
      ["first_session", "getting_started", "power_user", "precision_coder",
       "tool_master", "day_warrior"] ∧
    e.achievements.Nodup := by
  rcases hd : d.aggregate_stats with _ | st
  · simp [export_for_arena, hd] at h
  · simp only [export_for_arena, hd] at h
    injection h with h2
    subst h2
    refine ⟨achievements_of_sublist st d.tool_usage, ?_⟩
    exact List.Nodup.sublist (achievements_of_sublist st d.tool_usage) (by decide)

/-- C9 witness at the empty data set. -/
theorem c9_witness :
    List.Sublist exportOfEmptyStats.achievements
      ["first_session", "getting_started", "power_user", "precision_coder",
       "tool_master", "day_warrior"] ∧
    exportOfEmptyStats.achievements.Nodup :=
  c9_achievements_fixed_order emptyAllDataWithStats false exportOfEmptyStats rfl

/-- C10: for every pipeline run (root present, any flags), the exported
precisionist score `max(0, 100 − error_rate)` lies in [0, 100]: the max
gives the lower bound, and the upper bound holds because the computed
error rate is never negative. -/
theorem c10_precisionist_score_bounds
    (dirs : List (String × List (String × Option (List (Option Entry)))))
    (flag flag2 : Bool) (e : ArenaExport)
    (h : export_for_arena (parse_all_projects (some dirs) flag) flag2 = some e) :
    0 ≤ e.leaderboard_stats.precisionist_score ∧
    e.leaderboard_stats.precisionist_score ≤ 100 := by
  simp only [parse_all_projects, export_for_arena] at h
  injection h with h2
  subst h2
  constructor
  · exact le_max_left 0 _
  · refine max_le (by norm_num) ?_
    have h3 : 0 ≤ (calculate_aggregate_stats
        (List.foldl (step_project_dir flag) ⟨[], none, [], [], []⟩ dirs)).error_rate :=
      error_rate_of_nonneg _
    linarith

/-- C10 witness at the empty directory tree. -/
theorem c10_witness :
    0 ≤ c10export.leaderboard_stats.precisionist_score ∧
    c10export.leaderboard_stats.precisionist_score ≤ 100 :=
  c10_precisionist_score_bounds [] false false c10export rfl

/-- The descending-by-count comparison is transitive. -/
theorem descTrans : ∀ a b c : String × Nat,
    decide (b.2 ≤ a.2) = true → decide (c.2 ≤ b.2) = true → decide (c.2 ≤ a.2) = true := by
  intro a b c hab hbc
  simp only [decide_eq_true_eq] at *
  omega

/-- The descending-by-count comparison is total. -/
theorem descTotal : ∀ a b : String × Nat,
    (decide (b.2 ≤ a.2) || decide (a.2 ≤ b.2)) = true := by
  intro a b
  simp only [Bool.or_eq_true, decide_eq_true_eq]
  omega

/-- The ranked list is sorted by count, descending. -/
theorem sortDescByCount_sorted (m : List (String × Nat)) :
    List.Pairwise (fun a b => b.2 ≤ a.2) (sortDescByCount m) := by
  have hs := List.sorted_mergeSort descTrans descTotal m
  unfold sortDescByCount
  exact hs.imp (fun h => by simpa using h)

/-- The ranked list is a permutation of the input mapping. -/
theorem sortDescByCount_perm (m : List (String × Nat)) :
    (sortDescByCount m).Perm m :=
  List.mergeSort_perm m _

/-- Stability: entries of any one count value keep their first-seen
insertion order — filtering the ranked list to one count gives exactly the
same subsequence as filtering the input. -/
theorem sortDescByCount_stable_filter (m : List (String × Nat)) (n : Nat) :
    (sortDescByCount m).filter (fun q => q.2 == n) = m.filter (fun q => q.2 == n) := by
  have hc : (m.filter (fun q => q.2 == n)).Pairwise
      (fun (a b : String × Nat) => decide (b.2 ≤ a.2) = true) := by
    refine List.pairwise_of_forall_mem_list ?_
    intro a ha b hb
    have ha2 := (List.mem_filter.mp ha).2
    have hb2 := (List.mem_filter.mp hb).2
    simp only [beq_iff_eq] at ha2 hb2
    simp [ha2, hb2]
  have hsub : (m.filter (fun q => q.2 == n)).Sublist (sortDescByCount m) :=
    List.sublist_mergeSort descTrans descTotal hc (List.filter_sublist m)
  have hidem : (m.filter (fun q => q.2 == n)).filter (fun q => q.2 == n) =
      m.filter (fun q => q.2 == n) := by
    refine List.filter_eq_self.mpr ?_
    intro a ha
    exact (List.mem_filter.mp ha).2
  have hsubf : (m.filter (fun q => q.2 == n)).Sublist
      ((sortDescByCount m).filter (fun q => q.2 == n)) := by
    have := List.Sublist.filter (fun q : String × Nat => q.2 == n) hsub
    rwa [hidem] at this
  have hperm : ((sortDescByCount m).filter (fun q => q.2 == n)).Perm
      (m.filter (fun q => q.2 == n)) :=
    (sortDescByCount_perm m).filter _
  exact (hsubf.eq_of_length (hperm.length_eq).symm).symm

/-- C7: `most_used_tools` is the descending-by-count ranking of the global
tool map — ties kept in first-seen insertion order (the filter equations) —
truncated to at most 10 entries, while `most_used_models` is the same
ranking of the model map, never truncated (it has exactly as many entries
as the map, e.g. 15 for 15 distinct models). -/
theorem c7_ranked_tool_and_model_lists (d : AllData) :
    (calculate_aggregate_stats d).most_used_tools.length ≤ 10 ∧
    List.Pairwise (fun a b => b.2 ≤ a.2) (calculate_aggregate_stats d).most_used_tools ∧
    (∃ full : List (String × Nat),
      (calculate_aggregate_stats d).most_used_tools = full.take 10 ∧
      full.Perm d.tool_usage ∧
      List.Pairwise (fun a b => b.2 ≤ a.2) full ∧
      ∀ n : Nat, full.filter (fun q => q.2 == n) = d.tool_usage.filter (fun q => q.2 == n)) ∧
    (calculate_aggregate_stats d).most_used_models.Perm d.models_used ∧
    (calculate_aggregate_stats d).most_used_models.length = d.models_used.length ∧
    List.Pairwise (fun a b => b.2 ≤ a.2) (calculate_aggregate_stats d).most_used_models ∧
    ∀ n : Nat, (calculate_aggregate_stats d).most_used_models.filter (fun q => q.2 == n) =
      d.models_used.filter (fun q => q.2 == n) := by
  refine ⟨?_, ?_, ⟨sortDescByCount d.tool_usage, rfl, sortDescByCount_perm _,
    sortDescByCount_sorted _, sortDescByCount_stable_filter _⟩, sortDescByCount_perm _,
    (sortDescByCount_perm d.models_used).length_eq, sortDescByCount_sorted _,
    sortDescByCount_stable_filter _⟩
  · show ((sortDescByCount d.tool_usage).take 10).length ≤ 10
    simp [List.length_take]
  · exact List.Pairwise.sublist (List.take_sublist _ _) (sortDescByCount_sorted _)

/-- Reading a bumped counter: the bump adds `n` at its key and nothing
elsewhere. -/
theorem lookup0_bumpBy (m : List (String × Nat)) (k : String) (n : Nat) (k2 : String) :
    lookup0 (bumpBy m k n) k2 = lookup0 m k2 + (if k = k2 then n else 0) := by
  induction m with
  | nil => simp [bumpBy, lookup0]
  | cons p rest ih =>
      simp only [bumpBy]
      split_ifs with h1 <;> simp only [lookup0] <;> split_ifs <;> simp_all <;> omega

/-- Folding unit bumps over a tool list adds the occurrence count of each
key. -/
theorem lookup0_foldl_bump1 (l : List String) (m : List (String × Nat)) (k : String) :
    lookup0 (l.foldl (fun acc t => bumpBy acc t 1) m) k = lookup0 m k + l.count k := by
  induction l generalizing m with
  | nil => simp
  | cons t rest ih =>
      rw [List.foldl_cons, ih, lookup0_bumpBy]
      simp only [List.count_cons, beq_iff_eq]
      split_ifs <;> first | omega | simp_all

/-- Folding weighted bumps over a counter map adds the weighted sum of
each key. -/
theorem lookup0_foldl_bumpPairs (l : List (String × Nat)) (m : List (String × Nat))
    (k : String) :
    lookup0 (l.foldl (fun acc p => bumpBy acc p.1 p.2) m) k =
      lookup0 m k + (l.map (fun p => if p.1 = k then p.2 else 0)).sum := by
  induction l generalizing m with
  | nil => simp
  | cons p rest ih =>
      rw [List.foldl_cons, ih, lookup0_bumpBy]
      simp only [List.map_cons, List.sum_cons]
      omega

/-- The project token totals are the initial totals plus the per-file
token contributions, in any order. -/
theorem project_fold_tokens (flag : Bool) (files : List (String × Option (List (Option Entry))))
    (pd : ProjectData) :
    (files.foldl (step_project_file flag) pd).total_tokens =
      ⟨pd.total_tokens.input + (files.map (fun f => (fileTokens flag f).input)).sum,
       pd.total_tokens.output + (files.map (fun f => (fileTokens flag f).output)).sum,
       pd.total_tokens.cache_read + (files.map (fun f => (fileTokens flag f).cache_read)).sum,
       pd.total_tokens.cache_creation +
         (files.map (fun f => (fileTokens flag f).cache_creation)).sum⟩ := by
  induction files generalizing pd with
  | nil => rfl
  | cons f rest ih =>
      rw [List.foldl_cons, ih]
      rcases h : parse_session_file f.1 f.2 flag with _ | sd <;>
        simp [step_project_file, fileTokens, fileRecord, h, TokenUsage.mk.injEq] <;> omega

/-- The project error count is the initial count plus the per-file error
contributions. -/
theorem project_fold_errors (flag : Bool) (files : List (String × Option (List (Option Entry))))
    (pd : ProjectData) :
    (files.foldl (step_project_file flag) pd).error_count =
      pd.error_count + (files.map (fileErrors flag)).sum := by
  induction files generalizing pd with
  | nil => rfl
  | cons f rest ih =>
      rw [List.foldl_cons, ih]
      rcases h : parse_session_file f.1 f.2 flag with _ | sd <;>
        simp [step_project_file, fileErrors, fileRecord, h] <;> omega

/-- The project count of any tool is the initial count plus the per-file
contributions. -/
theorem project_fold_tools (flag : Bool) (files : List (String × Option (List (Option Entry))))
    (pd : ProjectData) (k : String) :
    lookup0 (files.foldl (step_project_file flag) pd).tool_usage k =
      lookup0 pd.tool_usage k + (files.map (fun f => fileToolCount flag f k)).sum := by
  induction files generalizing pd with
  | nil => simp
  | cons f rest ih =>
      rw [List.foldl_cons, ih]
      rcases h : parse_session_file f.1 f.2 flag with _ | sd <;>
        simp [step_project_file, fileToolCount, fileRecord, h, lookup0_foldl_bump1] <;> omega

/-- The project count of any model is the initial count plus the per-file
contributions. -/
theorem project_fold_models (flag : Bool) (files : List (String × Option (List (Option Entry))))
    (pd : ProjectData) (k : String) :
    lookup0 (files.foldl (step_project_file flag) pd).models_used k =
      lookup0 pd.models_used k + (files.map (fun f => fileModelCount flag f k)).sum := by
  induction files generalizing pd with
  | nil => simp
  | cons f rest ih =>
      rw [List.foldl_cons, ih]
      rcases h : parse_session_file f.1 f.2 flag with _ | sd
      · simp [step_project_file, fileModelCount, fileRecord, h]
      · by_cases hm : strTruthy sd.model = true
        · by_cases hk : sd.model.getD "" = k <;>
            simp [step_project_file, fileModelCount, fileRecord, h, hm, hk,
              lookup0_bumpBy] <;> omega
        · simp [step_project_file, fileModelCount, fileRecord, h, hm]

/-- Assigning a fresh key appends it at the end of the dict. -/
theorem dictSet_not_mem {α : Type} (m : List (String × α)) (k : String) (v : α)
    (h : k ∉ m.map (fun q => q.1)) : dictSet m k v = m ++ [(k, v)] := by
  induction m with
  | nil => rfl
  | cons p rest ih =>
      simp only [List.map_cons, List.mem_cons] at h
      push_neg at h
      have hne : ¬(p.1 = k) := fun he => h.1 he.symm
      simp only [dictSet, if_neg hne]
      rw [ih h.2]
      simp

/-- Updating a dict with pairwise-fresh keys appends them in order. -/
theorem dictUpdate_disjoint {α : Type} (other : List (String × α)) :
    ∀ m : List (String × α),
      (∀ k ∈ other.map (fun q => q.1), k ∉ m.map (fun q => q.1)) →
      (other.map (fun q => q.1)).Nodup →
      dictUpdate m other = m ++ other := by
  induction other with
  | nil => intro m _ _; simp [dictUpdate]
  | cons p rest ih =>
      intro m hdisj hnd
      have hstep : dictUpdate m (p :: rest) = dictUpdate (dictSet m p.1 p.2) rest := rfl
      rw [hstep, dictSet_not_mem m p.1 p.2 (hdisj p.1 (by simp))]
      simp only [List.map_cons, List.nodup_cons] at hnd
      have hd2 : ∀ k ∈ rest.map (fun q => q.1), k ∉ (m ++ [(p.1, p.2)]).map (fun q => q.1) := by
        intro k hk
        simp only [List.map_append, List.mem_append, List.map_cons]
        rintro (hkm | hkp)
        · exact hdisj k (by simp [hk]) hkm
        · simp only [List.map_nil, List.mem_cons, List.not_mem_nil, or_false] at hkp
          exact hnd.1 (hkp ▸ hk)
      rw [ih (m ++ [(p.1, p.2)]) hd2 hnd.2]
      simp

/-- The global count of any tool after the directory fold is the initial
count plus the per-directory contributions. -/
theorem global_fold_tools (flag : Bool)
    (dirs : List (String × List (String × Option (List (Option Entry)))))
    (d : AllData) (k : String) :
    lookup0 (dirs.foldl (step_project_dir flag) d).tool_usage k =
      lookup0 d.tool_usage k + (dirs.map (dirToolContrib flag k)).sum := by
  induction dirs generalizing d with
  | nil => simp
  | cons p rest ih =>
      rw [List.foldl_cons, ih]
      by_cases h : (parse_project_logs p.2 flag).sessions = [] <;>
        simp [step_project_dir, dirToolContrib, dirProject, h, lookup0_foldl_bumpPairs] <;>
        omega

/-- The global count of any model after the directory fold. -/
theorem global_fold_models (flag : Bool)
    (dirs : List (String × List (String × Option (List (Option Entry)))))
    (d : AllData) (k : String) :
    lookup0 (dirs.foldl (step_project_dir flag) d).models_used k =
      lookup0 d.models_used k + (dirs.map (dirModelContrib flag k)).sum := by
  induction dirs generalizing d with
  | nil => simp
  | cons p rest ih =>
      rw [List.foldl_cons, ih]
      by_cases h : (parse_project_logs p.2 flag).sessions = [] <;>
        simp [step_project_dir, dirModelContrib, dirProject, h, lookup0_foldl_bumpPairs] <;>
        omega

/-- With globally distinct session ids, the merged session map is the
concatenation of the per-project session maps, in directory order. -/
theorem global_fold_sessions (flag : Bool)
    (dirs : List (String × List (String × Option (List (Option Entry))))) :
    ∀ d : AllData,
      (d.sessions.map (fun q => q.1) ++
        (dirs.map (fun p => (parse_project_logs p.2 flag).sessions.map (fun q => q.1))).flatten).Nodup →
      (dirs.foldl (step_project_dir flag) d).sessions =
        d.sessions ++ (dirs.map (fun p => (parse_project_logs p.2 flag).sessions)).flatten := by
  induction dirs with
  | nil => intro d _; simp
  | cons p rest ih =>
      intro d hnd
      rw [List.foldl_cons]
      simp only [List.map_cons, List.flatten_cons] at hnd ⊢
      by_cases h : (parse_project_logs p.2 flag).sessions = []
      · have hstep : step_project_dir flag d p = d := by
          simp [step_project_dir, h]
        rw [hstep, ih d (by simpa [h] using hnd), h]
        simp
      · rcases List.nodup_append.mp hnd with ⟨h0, h12, hdis⟩
        rcases List.nodup_append.mp h12 with ⟨hP, _, _⟩
        have hdisj : ∀ k ∈ (parse_project_logs p.2 flag).sessions.map (fun q => q.1),
            k ∉ d.sessions.map (fun q => q.1) := by
          intro k hk hk0
          exact hdis hk0 (List.mem_append.mpr (Or.inl hk))
        have hs1 : (step_project_dir flag d p).sessions =
            d.sessions ++ (parse_project_logs p.2 flag).sessions := by
          simp only [step_project_dir, if_neg h]
          exact dictUpdate_disjoint _ _ hdisj hP
        have hnd2 : ((step_project_dir flag d p).sessions.map (fun q => q.1) ++
            (rest.map (fun q => (parse_project_logs q.2 flag).sessions.map (fun r => r.1))).flatten).Nodup := by
          rw [hs1, List.map_append, List.append_assoc]
          exact hnd
        rw [ih (step_project_dir flag d p) hnd2, hs1, List.append_assoc]

/-- C5: folding a fixed multiset of per-file session records into a
ProjectAggregate, and folding the per-project aggregates into GlobalStats,
is order-independent: any permutation of the file order yields identical
project token totals, error counts and tool/model count mappings, and any
permutation of the directory order yields identical global tool/model
count mappings and identical aggregate token sums and error totals (the
latter under the data-model assumption that session ids are globally
unique, since duplicate ids would make later files overwrite earlier ones
in dict-merge order). -/
theorem c5_fold_order_independence (flag : Bool)
    (files₁ files₂ : List (String × Option (List (Option Entry))))
    (hf : files₁.Perm files₂)
    (dirs₁ dirs₂ : List (String × List (String × Option (List (Option Entry)))))
    (hd : dirs₁.Perm dirs₂)
    (hnd : ((dirs₁.map (fun p =>
      (parse_project_logs p.2 flag).sessions.map (fun q => q.1))).flatten).Nodup) :
    (parse_project_logs files₁ flag).total_tokens =
      (parse_project_logs files₂ flag).total_tokens ∧
    (parse_project_logs files₁ flag).error_count =
      (parse_project_logs files₂ flag).error_count ∧
    (∀ k, lookup0 (parse_project_logs files₁ flag).tool_usage k =
      lookup0 (parse_project_logs files₂ flag).tool_usage k) ∧
    (∀ k, lookup0 (parse_project_logs files₁ flag).models_used k =
      lookup0 (parse_project_logs files₂ flag).models_used k) ∧
    (∀ k, lookup0 (parse_all_projects (some dirs₁) flag).tool_usage k =
      lookup0 (parse_all_projects (some dirs₂) flag).tool_usage k) ∧
    (∀ k, lookup0 (parse_all_projects (some dirs₁) flag).models_used k =
      lookup0 (parse_all_projects (some dirs₂) flag).models_used k) ∧
    (parse_all_projects (some dirs₁) flag).aggregate_stats.map
        (fun s => (s.total_tokens, s.total_errors)) =
      (parse_all_projects (some dirs₂) flag).aggregate_stats.map
        (fun s => (s.total_tokens, s.total_errors)) := by
  refine ⟨?_, ?_, fun k => ?_, fun k => ?_, fun k => ?_, fun k => ?_, ?_⟩
  · have hin := (hf.map (fun f => (fileTokens flag f).input)).sum_eq
    have hout := (hf.map (fun f => (fileTokens flag f).output)).sum_eq
    have hcr := (hf.map (fun f => (fileTokens flag f).cache_read)).sum_eq
    have hcc := (hf.map (fun f => (fileTokens flag f).cache_creation)).sum_eq
    unfold parse_project_logs
    rw [project_fold_tokens, project_fold_tokens, hin, hout, hcr, hcc]
  · have he := (hf.map (fileErrors flag)).sum_eq
    unfold parse_project_logs
    rw [project_fold_errors, project_fold_errors, he]
  · have ht := (hf.map (fun f => fileToolCount flag f k)).sum_eq
    unfold parse_project_logs
    rw [project_fold_tools, project_fold_tools, ht]
  · have hm := (hf.map (fun f => fileModelCount flag f k)).sum_eq
    unfold parse_project_logs
    rw [project_fold_models, project_fold_models, hm]
  · have ht := (hd.map (dirToolContrib flag k)).sum_eq
    show lookup0 (dirs₁.foldl (step_project_dir flag) ⟨[], none, [], [], []⟩).tool_usage k =
      lookup0 (dirs₂.foldl (step_project_dir flag) ⟨[], none, [], [], []⟩).tool_usage k
    rw [global_fold_tools, global_fold_tools, ht]
  · have hm := (hd.map (dirModelContrib flag k)).sum_eq
    show lookup0 (dirs₁.foldl (step_project_dir flag) ⟨[], none, [], [], []⟩).models_used k =
      lookup0 (dirs₂.foldl (step_project_dir flag) ⟨[], none, [], [], []⟩).models_used k
    rw [global_fold_models, global_fold_models, hm]
  · have hkeyperm := (hd.map (fun p =>
      (parse_project_logs p.2 flag).sessions.map (fun q => q.1))).flatten
    have hnd2 := hkeyperm.nodup hnd
    have hs1 := global_fold_sessions flag dirs₁ ⟨[], none, [], [], []⟩ (by simpa using hnd)
    have hs2 := global_fold_sessions flag dirs₂ ⟨[], none, [], [], []⟩ (by simpa using hnd2)
    have hperm : (dirs₁.foldl (step_project_dir flag) ⟨[], none, [], [], []⟩).sessions.Perm
        (dirs₂.foldl (step_project_dir flag) ⟨[], none, [], [], []⟩).sessions := by
      rw [hs1, hs2]
      simpa using (hd.map (fun p => (parse_project_logs p.2 flag).sessions)).flatten
    have htok : total_tokens_of (dirs₁.foldl (step_project_dir flag) ⟨[], none, [], [], []⟩) =
        total_tokens_of (dirs₂.foldl (step_project_dir flag) ⟨[], none, [], [], []⟩) := by
      unfold total_tokens_of
      rw [((hperm.map (fun p => p.2)).map (fun s => s.token_usage.input)).sum_eq,
          ((hperm.map (fun p => p.2)).map (fun s => s.token_usage.output)).sum_eq,
          ((hperm.map (fun p => p.2)).map (fun s => s.token_usage.cache_read)).sum_eq,
          ((hperm.map (fun p => p.2)).map (fun s => s.token_usage.cache_creation)).sum_eq]
    have herr : total_errors_of (dirs₁.foldl (step_project_dir flag) ⟨[], none, [], [], []⟩) =
        total_errors_of (dirs₂.foldl (step_project_dir flag) ⟨[], none, [], [], []⟩) := by
      unfold total_errors_of
      rw [((hperm.map (fun p => p.2)).map (fun s => s.errors.length)).sum_eq]
    show some ((calculate_aggregate_stats
        (dirs₁.foldl (step_project_dir flag) ⟨[], none, [], [], []⟩)).total_tokens,
        (calculate_aggregate_stats
        (dirs₁.foldl (step_project_dir flag) ⟨[], none, [], [], []⟩)).total_errors) =
      some ((calculate_aggregate_stats
        (dirs₂.foldl (step_project_dir flag) ⟨[], none, [], [], []⟩)).total_tokens,
        (calculate_aggregate_stats
        (dirs₂.foldl (step_project_dir flag) ⟨[], none, [], [], []⟩)).total_errors)
    have htok2 : (calculate_aggregate_stats
        (dirs₁.foldl (step_project_dir flag) ⟨[], none, [], [], []⟩)).total_tokens =
        (calculate_aggregate_stats
        (dirs₂.foldl (step_project_dir flag) ⟨[], none, [], [], []⟩)).total_tokens := htok
    have herr2 : (calculate_aggregate_stats
        (dirs₁.foldl (step_project_dir flag) ⟨[], none, [], [], []⟩)).total_errors =
        (calculate_aggregate_stats
        (dirs₂.foldl (step_project_dir flag) ⟨[], none, [], [], []⟩)).total_errors := herr
    rw [htok2, herr2]

/-- C5 witness: two files and two directories swapped, checked at the
concrete keys (tool `Bash`, model `m1`). -/
theorem c5_witness :
    (parse_project_logs wFiles1 false).total_tokens =
      (parse_project_logs wFiles2 false).total_tokens ∧
    (parse_project_logs wFiles1 false).error_count =
      (parse_project_logs wFiles2 false).error_count ∧
    lookup0 (parse_project_logs wFiles1 false).tool_usage "Bash" =
      lookup0 (parse_project_logs wFiles2 false).tool_usage "Bash" ∧
    lookup0 (parse_project_logs wFiles1 false).models_used "m1" =
      lookup0 (parse_project_logs wFiles2 false).models_used "m1" ∧
    lookup0 (parse_all_projects (some wDirs) false).tool_usage "Bash" =
      lookup0 (parse_all_projects (some wDirsRev) false).tool_usage "Bash" ∧
    lookup0 (parse_all_projects (some wDirs) false).models_used "m1" =
      lookup0 (parse_all_projects (some wDirsRev) false).models_used "m1" ∧
    (parse_all_projects (some wDirs) false).aggregate_stats.map
        (fun s => (s.total_tokens, s.total_errors)) =
      (parse_all_projects (some wDirsRev) false).aggregate_stats.map
        (fun s => (s.total_tokens, s.total_errors)) := by
  have h := c5_fold_order_independence false wFiles1 wFiles2 (by decide)
    wDirs wDirsRev (by decide) (by decide)
  exact ⟨h.1, h.2.1, h.2.2.1 "Bash", h.2.2.2.1 "m1", h.2.2.2.2.1 "Bash",
    h.2.2.2.2.2.1 "m1", h.2.2.2.2.2.2⟩

end ClaudeArena
